import Mathlib

/-
Verification of the raygun4reactnative crash-reporting pipeline.

Shallow embedding of the two source files:
  * the module referred to below as part_000 (the process-wide pipeline:
    session store, stack normalization, payload builder, before-send filter,
    delivery routing in processUnhandledError);
  * src/sdk/src/RaygunClient.ts (the RaygunClient variant, modelled in
    namespace RaygunClient).

JavaScript conventions used throughout the embedding:
  * a JS string is modelled as String; a possibly-absent (undefined) string
    field as Option String; the JS falsy test on a string value treats both
    undefined and "" as falsy;
  * a JS Set of strings is modelled as a List String holding the elements in
    insertion order without duplicates (Set.add appends when absent);
  * a JS object used as a string-keyed dictionary is modelled as an
    association list;
  * wall-clock reads (new Date, Date.now) and other collaborator outputs are
    taken as explicit parameters so every definition is deterministic.
-/

namespace Raygun

/-- Character-level test used for the embedding of JS String.trim and of the
regex class \s: space, tab, newline, carriage return, form feed. -/
def isJSWhite (c : Char) : Bool :=
  c = ' ' || c = '\t' || c = '\n' || c = '\r' || c = '\x0c'

/-- Drop trailing whitespace characters. -/
def dropTrail (l : List Char) : List Char :=
  (l.reverse.dropWhile isJSWhite).reverse

/-- Embedding of JS String.trim: remove leading and trailing whitespace. -/
def jsTrim (l : List Char) : List Char :=
  dropTrail (l.dropWhile isJSWhite)

/-- Bool-valued prefix test on character lists (pattern, then text). -/
def leadsWith : List Char → List Char → Bool
  | [], _ => true
  | _ :: _, [] => false
  | a :: as, b :: bs => a = b && leadsWith as bs

/-- Bool-valued suffix test on character lists (pattern, then text). -/
def trailsWith (pat l : List Char) : Bool :=
  leadsWith pat.reverse l.reverse

/-- Embedding of JS String.indexOf for a substring pattern: index of the first
occurrence, none for the JS result -1. -/
def idxOfSub (pat : List Char) : List Char → Option Nat
  | [] => if leadsWith pat [] then some 0 else none
  | c :: rest =>
    if leadsWith pat (c :: rest) then some 0
    else (idxOfSub pat rest).map (· + 1)

/-- One raw React Native stack frame as consumed by the pipeline
(StackFrame from parseErrorStack: file, methodName, lineNumber, column).
A missing/null file is modelled as "" (both are JS-falsy where tested). -/
structure StackFrame where
  file : String
  methodName : String
  lineNumber : Int
  column : Int
  deriving Repr, DecidableEq

/-- Embedding of noAddressAt from part_000:
pos = methodName.indexOf("(address at"); when pos > -1 the method name is
replaced by methodName.slice(0, pos).trim(). -/
def noAddressAt (frame : StackFrame) : StackFrame :=
  match idxOfSub "(address at".toList frame.methodName.toList with
  | some pos =>
      { frame with methodName := String.mk (jsTrim (frame.methodName.toList.take pos)) }
  | none => frame

/-- Embedding of the internalTrace regex of part_000,
ReactNativeRenderer-dev\.js$|MessageQueue\.js$|native\scode, as an
unanchored search: the first two alternatives are anchored at the end of the
string, the third looks for "native", one \s character, then "code" anywhere. -/
def hasNativeSpaceCode : List Char → Bool
  | [] => false
  | c :: rest =>
    (leadsWith "native".toList (c :: rest) &&
      (match (c :: rest).drop 6 with
       | w :: rest2 => isJSWhite w && leadsWith "code".toList rest2
       | [] => false)) ||
    hasNativeSpaceCode rest

/-- Whether file.match(internalTrace) finds a match. -/
def matchesInternalTrace (file : List Char) : Bool :=
  trailsWith "ReactNativeRenderer-dev.js".toList file ||
  trailsWith "MessageQueue.js".toList file ||
  hasNativeSpaceCode file

/-- Embedding of filterOutReactFrames from part_000:
!!frame.file && !frame.file.match(internalTrace); a missing file is "" here,
which is JS-falsy exactly like undefined. -/
def filterOutReactFrames (frame : StackFrame) : Bool :=
  frame.file ≠ "" && !matchesInternalTrace frame.file.toList

/-- SOURCE_MAP constant of part_000 (named SOURCE_MAP_PREFIX there):
"file://reactnative.local/". -/
def sourceMapBase : String := "file://reactnative.local/"

/-- Step of the devicePathPattern matcher: after the group (\.app|CodePush),
the pattern continues \/?(.*); the optional slash is greedy, so a leading "/"
is consumed before group 3 captures the rest. -/
def afterOptSlash : List Char → List Char
  | '/' :: rest => rest
  | l => l

/-- Backtracking matcher for the tail [^\.]+(\.app|CodePush)\/?(.*) of
devicePathPattern against l, returning the characters of capture group 3.
The quantifier [^\.]+ is greedy, so candidate lengths are tried from the
longest down to 1; for each, the alternation tries \.app before CodePush,
exactly as the JS engine does. -/
def tryRun : Nat → List Char → Option (List Char)
  | 0, _ => none
  | i + 1, l =>
    (if (l.take (i + 1)).all (fun c => c ≠ '.') then
       let rest := l.drop (i + 1)
       if leadsWith ".app".toList rest then some (afterOptSlash (rest.drop 4))
       else if leadsWith "CodePush".toList rest then some (afterOptSlash (rest.drop 8))
       else none
     else none).orElse (fun _ => tryRun i l)

/-- Backtracking matcher for .*\/ followed by the tail pattern: the greedy .*
makes the JS engine try the rightmost "/" first, then backtrack leftwards.
The argument n is the number of candidate slash positions still to try; the
call trySlashes l.length l tries indices l.length - 1 down to 0. -/
def trySlashes : Nat → List Char → Option (List Char)
  | 0, _ => none
  | p + 1, l =>
    (if l[p]? = some '/' then tryRun (l.drop (p + 1)).length (l.drop (p + 1)) else none).orElse
      (fun _ => trySlashes p l)

/-- Backtracking matcher for the optional leading group (.*@)? of
devicePathPattern: greedy, so the candidate "@" positions are tried from the
last "@" leftwards, and only then is the group taken as absent (the base
case, which matches the rest of the pattern against the whole input). -/
def tryAtSigns : Nat → List Char → Option (List Char)
  | 0, l => trySlashes l.length l
  | j + 1, l =>
    (if l[j]? = some '@' then trySlashes (l.drop (j + 1)).length (l.drop (j + 1)) else none).orElse
      (fun _ => tryAtSigns j l)

/-- Embedding of devicePathPattern.exec(file) for the part_000 regex
^(.*@)?.*\/[^\.]+(\.app|CodePush)\/?(.*), returning the fileName capture
(group 3) when the regex matches, none when exec returns null. The JS dot
does not match a newline; the embedding assumes newline-free inputs, which
holds for every device file path considered. -/
def execDevicePathPattern (file : String) : Option String :=
  (tryAtSigns file.toList.length file.toList).map fun l => String.mk l

/-- Embedding of cleanFilePath from part_000: frames whose file matches
devicePathPattern get SOURCE_MAP_PREFIX + fileName, others pass through. -/
def cleanFilePath (frames : List StackFrame) : List StackFrame :=
  frames.map fun frame =>
    match execDevicePathPattern frame.file with
    | some fileName => { frame with file := sourceMapBase ++ fileName }
    | none => frame

/-- The production-mode stack actually computed by processUnhandledError.
The source reads
  const stack = cleanedStackFrames.stack || [].filter(filterOutReactFrames).map(noAddressAt);
where in production cleanedStackFrames = \x7b stack: cleanFilePath(stackFrame) \x7d.
An array is always JS-truthy, so the left operand of || is returned as-is and
the right operand — which filters and maps the EMPTY array literal, not the
parsed frames — is never evaluated: filterOutReactFrames and noAddressAt are
never applied to any frame. -/
def prodStack (frames : List StackFrame) : List StackFrame :=
  cleanFilePath frames

/-- String-keyed user dictionary (the CustomData type of the source), as an
association list in key insertion order. Values are kept as strings; claims
never inspect value structure. -/
abbrev CustomData := List (String × String)

/-- Write one key into a JS object modelled as an association list: an
existing key keeps its position and gets the new value (last write wins), a
new key is appended. -/
def setKey (l : CustomData) (kv : String × String) : CustomData :=
  if l.any (fun p => p.1 = kv.1) then
    l.map (fun p => if p.1 = kv.1 then kv else p)
  else l ++ [kv]

/-- Embedding of Object.assign(\x7b\x7d, base, extra) on dictionary objects:
shallow merge, last write wins per key. -/
def objAssign (base extra : CustomData) : CustomData :=
  extra.foldl setKey base

/-- The canonical User value stored in the session. A JS user object may lack
fields: a missing identifier is none, a missing isAnonymous is JS-falsy and
is modelled as false, missing name/email strings as "". -/
structure User where
  identifier : Option String
  isAnonymous : Bool
  firstName : String
  fullName : String
  email : String
  deriving Repr, DecidableEq

/-- A breadcrumb as stored by recordBreadcrumb (timestamp in epoch ms). -/
structure Breadcrumb where
  message : String
  category : String
  level : String
  customData : CustomData
  timestamp : Nat
  deriving Repr, DecidableEq

/-- The optional details argument of recordBreadcrumb (BreadcrumbOption):
each field may be absent. -/
structure BreadcrumbOption where
  category : Option String
  level : Option String
  customData : Option CustomData
  deriving Repr, DecidableEq

/-- The live session of part_000: a JS Set of tags (insertion-ordered,
duplicate-free list), custom data, breadcrumb trail, user. -/
structure Session where
  tags : List String
  customData : CustomData
  breadcrumbs : List Breadcrumb
  user : User
  deriving Repr, DecidableEq

/-- Embedding of getCleanSession from part_000: tags seeded with the fixed
platform tag, empty custom data and breadcrumbs, user \x7bidentifier:
"anonymous"\x7d (its other fields absent). -/
def getCleanSession : Session :=
  { tags := ["React Native"]
    customData := []
    breadcrumbs := []
    user := { identifier := some "anonymous", isAnonymous := false,
              firstName := "", fullName := "", email := "" } }

/-- Embedding of clearSession from part_000: the live session is replaced
wholesale by a fresh clean session. -/
def clearSession : Session := getCleanSession

/-- JS Set.add on the insertion-ordered list model: append when absent. -/
def setAdd (l : List String) (x : String) : List String :=
  if x ∈ l then l else l ++ [x]

/-- The session effect of addTag(...tags) in part_000:
tags.forEach(tag =\x3e curSession.tags.add(tag)). -/
def addTagList (tags cur : List String) : List String :=
  tags.foldl setAdd cur

/-- A raw JS error value as seen by processUnhandledError. Unhandled
rejections may deliver arbitrary values, so the error itself and each of its
fields may be absent; toStringVal is the result of error.toString(). -/
structure ErrorObj where
  name : Option String
  message : Option String
  stack : Option String
  toStringVal : String
  deriving Repr, DecidableEq

/-- JS falsy test on a possibly-absent string: undefined and "" are falsy. -/
def jsFalsyStr : Option String → Bool
  | none => true
  | some s => s = ""

/-- Embedding of x || dflt on a possibly-absent JS string x. -/
def jsOrElse (v : Option String) (dflt : String) : String :=
  match v with
  | none => dflt
  | some s => if s = "" then dflt else s

/-- The drop guard at the top of processUnhandledError:
if (!error || !error.stack) \x7b log; return; \x7d. Only the error itself and its
stack are tested; the message is not consulted. -/
def shouldDropError : Option ErrorObj → Bool
  | none => true
  | some e => jsFalsyStr e.stack

/-- Environment data of the payload: the getTimezoneOffset() minutes (the
wire value UtcOffset is this divided by 60) plus whatever the native
getEnvironmentInfo collaborator returned (empty off Android). Claims never
inspect it; it is threaded through as data. -/
structure EnvInfo where
  utcOffsetMinutes : Int
  details : List (String × String)
  deriving Repr, DecidableEq

/-- One entry of Details.Error.StackTrace in the wire payload. -/
structure PayloadStackFrame where
  FileName : String
  MethodName : String
  LineNumber : Int
  ColumnNumber : Int
  ClassName : String
  deriving Repr, DecidableEq

/-- Details.Error of the wire payload. -/
structure PayloadError where
  ClassName : String
  Message : String
  StackTrace : List PayloadStackFrame
  StackString : String
  deriving Repr, DecidableEq

/-- upperFirst applied to the session user: the generic key-capitalizing
walker of part_000, specialized to the User shape (every key is relabelled,
values pass through; an absent identifier stays absent). -/
structure PayloadUser where
  Identifier : Option String
  IsAnonymous : Bool
  FirstName : String
  FullName : String
  Email : String
  deriving Repr, DecidableEq

def upperFirstUser (u : User) : PayloadUser :=
  { Identifier := u.identifier
    IsAnonymous := u.isAnonymous
    FirstName := u.firstName
    FullName := u.fullName
    Email := u.email }

/-- upperFirst applied to one breadcrumb: keys are relabelled except the
customData subtree, which the walker maps to the key CustomData with the
value passed through untouched. -/
structure PayloadBreadcrumb where
  Message : String
  Category : String
  Level : String
  CustomData : CustomData
  Timestamp : Nat
  deriving Repr, DecidableEq

def upperFirstBreadcrumb (b : Breadcrumb) : PayloadBreadcrumb :=
  { Message := b.message
    Category := b.category
    Level := b.level
    CustomData := b.customData
    Timestamp := b.timestamp }

/-- The Details object of the wire payload. Client.Name and Client.Version
are flattened into ClientName/ClientVersion. -/
structure PayloadDetails where
  Error : PayloadError
  Environment : EnvInfo
  ClientName : String
  ClientVersion : String
  UserCustomData : CustomData
  Tags : List String
  User : PayloadUser
  Breadcrumbs : List PayloadBreadcrumb
  Version : String
  deriving Repr, DecidableEq

/-- The crash report payload; OccurredOn is the build-time clock reading. -/
structure CrashReportPayload where
  OccurredOn : Nat
  Details : PayloadDetails
  deriving Repr, DecidableEq

/-- Mapping of one normalized frame into the wire StackTrace entry:
MethodName: methodName || "[anonymous]",
ClassName: the template string of line and column. -/
def toPayloadFrame (f : StackFrame) : PayloadStackFrame :=
  { FileName := f.file
    MethodName := if f.methodName = "" then "[anonymous]" else f.methodName
    LineNumber := f.lineNumber
    ColumnNumber := f.column
    ClassName := "line " ++ toString f.lineNumber ++ ", column " ++ toString f.column }

/-- Embedding of generatePayload from part_000.

The source is handed the LIVE session object (processUnhandledError passes
curSession, never a copy), destructures it on entry — grabbing references to
its tags set, breadcrumbs array, user object and customData object — then
awaits the getEnvironmentInfo collaborator, and only after that await
resolves does it construct the payload record. Consequences, made explicit
by the two session arguments:
  * tags is read by the spread [...tags] and breadcrumbs by the upperFirst
    map after the await; addTag and recordBreadcrumb mutate those very
    objects in place, so these two fields observe the grabbed objects as
    they stand at resume time (sAtResume);
  * the user and customData slots of the session are only ever replaced
    wholesale (setUser, addCustomData, updateCustomData, clearSession), so
    the objects grabbed at call time are what the payload carries: these
    fields observe sAtCall.
In a run with no interleaved session mutation the two arguments coincide.
buildTime is the new Date() reading at construction; platformOS, clientVer
(the npm package version) and optVer (GlobalOptions.version) are the
collaborator and configuration inputs. -/
def generatePayloadFrom (err : Option ErrorObj) (stackFrames : List StackFrame)
    (sAtCall sAtResume : Session) (buildTime : Nat) (env : EnvInfo)
    (platformOS clientVer optVer : String) : CrashReportPayload :=
  { OccurredOn := buildTime
    Details :=
      { Error :=
          { ClassName := jsOrElse (err.bind fun e => e.name) ""
            Message := jsOrElse (err.bind fun e => e.message) ""
            StackTrace := stackFrames.map toPayloadFrame
            StackString := jsOrElse (err.map fun e => e.toStringVal) "" }
        Environment := env
        ClientName := "raygun4reactnative." ++ platformOS
        ClientVersion := clientVer
        UserCustomData := sAtCall.customData
        Tags := sAtResume.tags
        User := upperFirstUser sAtCall.user
        Breadcrumbs := sAtResume.breadcrumbs.map upperFirstBreadcrumb
        Version := if optVer = "" then "Not supplied" else optVer } }

/-- generatePayload in a run where no session mutation interleaves with the
awaited environment lookup. -/
def generatePayload (err : Option ErrorObj) (stackFrames : List StackFrame)
    (s : Session) (buildTime : Nat) (env : EnvInfo)
    (platformOS clientVer optVer : String) : CrashReportPayload :=
  generatePayloadFrom err stackFrames s s buildTime env platformOS clientVer optVer

/-- State of the Rg4rn native module as the part_000 globals see it:
absent — NativeModules.Rg4rn is undefined, any member access throws;
inactive — the module object exists but canEnableNative is false;
active — canEnableNative is true (which by init implies the module exists). -/
inductive NativeModule
  | absent
  | inactive
  | active
  deriving Repr, DecidableEq

/-- Result of one session-mutation operation: the session afterwards, how
many calls were made into the Rg4rn module, and whether a TypeError escaped
into the caller. -/
structure MutationResult where
  session : Session
  nativeCalls : Nat
  threw : Bool
  deriving Repr, DecidableEq

/-- Embedding of addTag(...tags) from part_000: every tag is added to the
session tag set; then, guarded by canEnableNative, one Rg4rn.setTags call. -/
def addTag (native : NativeModule) (tags : List String) (s : Session) : MutationResult :=
  { session := { s with tags := addTagList tags s.tags }
    nativeCalls := if native = NativeModule.active then 1 else 0
    threw := false }

/-- The duck-typed argument of setUser: a string, the undefined value, or a
structured user object (whose fields may each be absent). -/
structure UserFields where
  identifier : Option String
  isAnonymous : Option Bool
  firstName : Option String
  fullName : Option String
  email : Option String
  deriving Repr, DecidableEq

inductive UserArg
  | ofString (s : String)
  | undef
  | ofUser (u : UserFields)
  deriving Repr, DecidableEq

/-- The userObj computed by setUser in part_000:
Object.assign(\x7bfirstName: "", fullName: "", email: "", isAnonymous: false\x7d, src)
where src is \x7bidentifier: user\x7d for a non-empty string, \x7bidentifier: uuidv4(),
isAnonymous: true\x7d for an empty string, and the argument itself otherwise.
typeof undefined is not "string", so undefined takes the object branch, and
Object.assign with an undefined source adds nothing: the defaults survive,
with no identifier and isAnonymous false. genId is the uuidv4() draw. -/
def setUserObj (genId : String) : UserArg → User
  | UserArg.ofString s =>
    if s ≠ "" then
      { identifier := some s, isAnonymous := false, firstName := "", fullName := "", email := "" }
    else
      { identifier := some genId, isAnonymous := true, firstName := "", fullName := "", email := "" }
  | UserArg.undef =>
      { identifier := none, isAnonymous := false, firstName := "", fullName := "", email := "" }
  | UserArg.ofUser u =>
      { identifier := u.identifier
        isAnonymous := u.isAnonymous.getD false
        firstName := u.firstName.getD ""
        fullName := u.fullName.getD ""
        email := u.email.getD "" }

/-- Embedding of setUser from part_000. The assignment into the session
happens inside the native guard — Rg4rn.setUser((curSession.user = userObj))
— so with canEnableNative false the computed user is never stored. -/
def setUser (native : NativeModule) (genId : String) (arg : UserArg) (s : Session) : MutationResult :=
  if native = NativeModule.active then
    { session := { s with user := setUserObj genId arg }, nativeCalls := 1, threw := false }
  else
    { session := s, nativeCalls := 0, threw := false }

/-- Embedding of addCustomData from part_000:
  curSession.customData = Object.assign(\x7b\x7d, curSession.customData, customData);
  Rg4rn.setCustomData(clone(curSession.customData));
The Rg4rn call is UNGUARDED — unlike addTag, setUser, updateCustomData and
recordBreadcrumb there is no canEnableNative test — so it also fires when
native reporting is disabled, and when the Rg4rn module is absent the member
access throws a TypeError into the caller (after the local merge has already
taken effect). -/
def addCustomData (native : NativeModule) (d : CustomData) (s : Session) : MutationResult :=
  let s2 := { s with customData := objAssign s.customData d }
  match native with
  | NativeModule.absent => { session := s2, nativeCalls := 0, threw := true }
  | NativeModule.inactive => { session := s2, nativeCalls := 1, threw := false }
  | NativeModule.active => { session := s2, nativeCalls := 1, threw := false }

/-- Embedding of updateCustomData from part_000: the custom data is replaced
by updater(current); the Rg4rn.setCustomData call is guarded by
canEnableNative. -/
def updateCustomData (native : NativeModule) (updater : CustomData → CustomData)
    (s : Session) : MutationResult :=
  let s2 := { s with customData := updater s.customData }
  { session := s2
    nativeCalls := if native = NativeModule.active then 1 else 0
    threw := false }

/-- The breadcrumb built by recordBreadcrumb: defaults, then the details
spread, then the timestamp stamped by the pipeline (so the caller can never
supply it). -/
def makeBreadcrumb (message : String) (details : BreadcrumbOption) (now : Nat) : Breadcrumb :=
  { message := message
    category := details.category.getD ""
    level := details.level.getD "info"
    customData := details.customData.getD []
    timestamp := now }

/-- Embedding of recordBreadcrumb from part_000: append to the trail; the
Rg4rn.recordBreadcrumb call is guarded by canEnableNative. -/
def recordBreadcrumb (native : NativeModule) (message : String)
    (details : BreadcrumbOption) (now : Nat) (s : Session) : MutationResult :=
  let s2 := { s with breadcrumbs := s.breadcrumbs ++ [makeBreadcrumb message details now] }
  { session := s2
    nativeCalls := if native = NativeModule.active then 1 else 0
    threw := false }

/-- A write a Before-Send Filter may attempt on the payload object it is
handed. Object.freeze(payload) is shallow: it makes the OWN properties of
the payload object (OccurredOn, Details) read-only but leaves every nested
object mutable. In non-strict mode a write to a frozen property is silently
ignored; a write through payload.Details succeeds. -/
inductive FilterWrite
  | setOccurredOn (t : Nat)
  | setDetails (d : PayloadDetails)
  | setErrorMessage (m : String)
  | setTags (tags : List String)
  deriving Repr, DecidableEq

/-- The effect of one attempted write on the frozen payload, per the shallow
Object.freeze semantics above. -/
def applyFilterWrite (p : CrashReportPayload) : FilterWrite → CrashReportPayload
  | FilterWrite.setOccurredOn _ => p
  | FilterWrite.setDetails _ => p
  | FilterWrite.setErrorMessage m =>
      { p with Details := { p.Details with Error := { p.Details.Error with Message := m } } }
  | FilterWrite.setTags tags =>
      { p with Details := { p.Details with Tags := tags } }

def applyFilterWrites (p : CrashReportPayload) (ws : List FilterWrite) : CrashReportPayload :=
  ws.foldl applyFilterWrite p

/-- A configured onBeforeSend filter: the boolean it returns on the payload
it is handed, plus the writes it attempts on that (shallowly frozen) object
during the call. -/
structure FilterBehavior where
  decision : CrashReportPayload → Bool
  writes : List FilterWrite

/-- The session after the isFatal step of processUnhandledError:
if (isFatal) curSession.tags.add("Fatal"). -/
def fatalTagged (isFatal : Bool) (s : Session) : Session :=
  if isFatal then { s with tags := setAdd s.tags "Fatal" } else s

/-- The payload processUnhandledError builds for an occurrence, in a run
with no interleaved session mutation: generatePayload applied to the
production-mode stack and the (possibly Fatal-tagged) live session. -/
def builtFor (err : Option ErrorObj) (frames : List StackFrame) (isFatal : Bool)
    (s : Session) (buildTime : Nat) (env : EnvInfo)
    (platformOS clientVer optVer : String) : CrashReportPayload :=
  generatePayload err (prodStack frames) (fatalTagged isFatal s) buildTime env
    platformOS clientVer optVer

/-- How one occurrence left the delivery router. The payload carried by the
sent constructors is the object as transmitted (after any writes the filter
performed on it); skippedByFilter carries the built payload, which is
discarded. -/
inductive Outcome
  | droppedMalformed
  | skippedByFilter (built : CrashReportPayload)
  | sentNative (transmitted : CrashReportPayload)
  | sentDirect (transmitted : CrashReportPayload)
  deriving Repr, DecidableEq

/-- Number of transport calls (native handoff or direct send) the outcome
performed. -/
def transmissions : Outcome → Nat
  | Outcome.sentNative _ => 1
  | Outcome.sentDirect _ => 1
  | _ => 0

/-- The payload actually handed to a transport, when one was. -/
def transmittedOf : Outcome → Option CrashReportPayload
  | Outcome.sentNative p => some p
  | Outcome.sentDirect p => some p
  | _ => none

/-- Whether the occurrence got past the malformed-error guard and a payload
was constructed for it. -/
def buildsPayload : Outcome → Bool
  | Outcome.droppedMalformed => false
  | _ => true

/-- The filter-and-dispatch tail of processUnhandledError on a built
payload: the shouldSkip test
  onBeforeSend && typeof onBeforeSend === "function" && !onBeforeSend(Object.freeze(payload))
(an absent filter modelled as none), then, unless skipped, exactly one
transport call — Rg4rn.sendCrashReport when canEnableNative and the direct
transport otherwise — the transmitted object being the built payload after
whatever writes the filter performed on the (shallowly frozen) object. -/
def routeDelivery (onBeforeSend : Option FilterBehavior) (canNative : Bool)
    (built : CrashReportPayload) : Outcome :=
  match onBeforeSend with
  | some f =>
    let afterFilter := applyFilterWrites built f.writes
    if !(f.decision built) then Outcome.skippedByFilter built
    else if canNative then Outcome.sentNative afterFilter
    else Outcome.sentDirect afterFilter
  | none =>
    if canNative then Outcome.sentNative built
    else Outcome.sentDirect built

/-- Embedding of processUnhandledError from part_000 in production mode
(the __DEV__ symbolication branch differs only in which frames feed the
payload). parsedFrames is the output of the external parseErrorStack
collaborator on error.stack. Steps, in source order: the
!error || !error.stack drop guard; the production stack (see prodStack); the
Fatal tag added to the LIVE session when isFatal; generatePayload on the
live session (builtFor); then the filter-and-dispatch tail (routeDelivery).
Returns the session afterwards and the outcome. -/
def processUnhandledError (onBeforeSend : Option FilterBehavior) (canNative : Bool)
    (err : Option ErrorObj) (isFatal : Bool) (parsedFrames : List StackFrame)
    (buildTime : Nat) (env : EnvInfo) (platformOS clientVer optVer : String)
    (s : Session) : Session × Outcome :=
  if shouldDropError err then (s, Outcome.droppedMalformed)
  else
    (fatalTagged isFatal s,
     routeDelivery onBeforeSend canNative
       (builtFor err parsedFrames isFatal s buildTime env platformOS clientVer optVer))

/-- A session-mutating pipeline event, for stating invariants over arbitrary
interleavings of the public operations and further occurrences. Each
constructor carries the collaborator inputs its operation reads. -/
inductive SessionOp
  | opAddTag (native : NativeModule) (tags : List String)
  | opSetUser (native : NativeModule) (genId : String) (arg : UserArg)
  | opAddCustomData (native : NativeModule) (d : CustomData)
  | opUpdateCustomData (native : NativeModule) (updater : CustomData → CustomData)
  | opRecordBreadcrumb (native : NativeModule) (message : String)
      (details : BreadcrumbOption) (now : Nat)
  | opProcessError (onBeforeSend : Option FilterBehavior) (canNative : Bool)
      (err : Option ErrorObj) (isFatal : Bool) (frames : List StackFrame)
      (buildTime : Nat) (env : EnvInfo) (platformOS clientVer optVer : String)
  | opClearSession

/-- The session transition of one pipeline event. -/
def applyOp (s : Session) : SessionOp → Session
  | SessionOp.opAddTag native tags => (addTag native tags s).session
  | SessionOp.opSetUser native genId arg => (setUser native genId arg s).session
  | SessionOp.opAddCustomData native d => (addCustomData native d s).session
  | SessionOp.opUpdateCustomData native updater => (updateCustomData native updater s).session
  | SessionOp.opRecordBreadcrumb native message details now =>
      (recordBreadcrumb native message details now s).session
  | SessionOp.opProcessError onB canNative err isFatal frames t env pOS cv ov =>
      (processUnhandledError onB canNative err isFatal frames t env pOS cv ov s).1
  | SessionOp.opClearSession => clearSession

def applyOps (s : Session) (ops : List SessionOp) : Session :=
  ops.foldl applyOp s

/-- Whether the event is the wholesale session replacement. -/
def isClear : SessionOp → Bool
  | SessionOp.opClearSession => true
  | _ => false

/-- Concrete environment reading used by the evaluation theorems. -/
def envNone : EnvInfo := { utcOffsetMinutes := 0, details := [] }

/-- A well-formed captured error with message "boom". -/
def errBoom : ErrorObj :=
  { name := some "Error"
    message := some "boom"
    stack := some "Error: boom\n    at foo"
    toStringVal := "Error: boom" }

/-- An error with a usable stack but no message field. -/
def errNoMessage : ErrorObj :=
  { name := some "Error"
    message := none
    stack := some "Error\n    at foo"
    toStringVal := "Error" }

/-- The raw frame of the specification example: device-path file, method
name carrying the debug suffix. -/
def rawDeviceFrame : StackFrame :=
  { file := "/data/app/MyApp.app/main.jsbundle"
    methodName := "foo(address at 12:3)"
    lineNumber := 5
    column := 3 }

/-- The payload built for errBoom on a clean session (concrete evaluation
input for the filter-immutability theorems). -/
def builtBoom : CrashReportPayload :=
  builtFor (some errBoom) [] false getCleanSession 0 envNone "ios" "4.0.0" ""

end Raygun

namespace RaygunClient

open Raygun (CustomData User UserArg UserFields addTagList)

/-- The options of RaygunClient.ts that its guards and operations read
after init has defaulted them. -/
structure Options where
  enableCrashReporting : Bool
  disableNativeCrashReporting : Bool
  enableRealUserMonitoring : Bool
  deriving Repr, DecidableEq

/-- The module-level globals of RaygunClient.ts. Before init runs,
the options global is still undefined (none), no CrashReporter or
RealUserMonitor has been constructed, the tag set is empty and the user is
the device-based anonymous default. -/
structure State where
  inited : Bool
  options : Option Options
  hasCrashReporter : Bool
  hasRealUserMonitor : Bool
  currentTags : List String
  currentUser : User
  deriving Repr, DecidableEq

/-- The module state before init(...) has run; devId is the
getDeviceBasedId() draw used for the default anonymous user. -/
def preInit (devId : String) : State :=
  { inited := false
    options := none
    hasCrashReporter := false
    hasRealUserMonitor := false
    currentTags := []
    currentUser :=
      { identifier := some ("anonymous-" ++ devId), isAnonymous := true,
        firstName := "", fullName := "", email := "" } }

/-- Result of one public RaygunClient operation: the module state
afterwards, warnings logged, calls made into the RaygunNativeBridge, calls
delegated to the CrashReporter/RealUserMonitor collaborators (whose own
state lives outside this file), and whether a TypeError escaped into the
caller. -/
structure OpResult where
  state : State
  warnings : Nat
  nativeCalls : Nat
  reporterCalls : Nat
  threw : Bool
  deriving Repr, DecidableEq

/-- Embedding of crashReportingAvailable: warns and yields false before
init, or when no CrashReporter was constructed or crash reporting is not
enabled in the options; yields (available, warnings logged). When inited is
true the options global is set, so the read of enableCrashReporting is
modelled through getD. -/
def crashReportingAvailable (st : State) : Bool × Nat :=
  if !st.inited then (false, 1)
  else if !(st.hasCrashReporter && (st.options.map fun o => o.enableCrashReporting).getD false) then
    (false, 1)
  else (true, 0)

/-- Embedding of realUserMonitoringAvailable, same shape as
crashReportingAvailable but for the RealUserMonitor. -/
def realUserMonitoringAvailable (st : State) : Bool × Nat :=
  if !st.inited then (false, 1)
  else if !(st.hasRealUserMonitor && (st.options.map fun o => o.enableRealUserMonitoring).getD false) then
    (false, 1)
  else (true, 0)

/-- Embedding of addTag from RaygunClient.ts. Source order:
  1. tags.forEach(tag =\x3e currentTags.add(tag))      — mutates the tag set
     before any availability guard;
  2. if (crashReportingAvailable("addTags")) crashReporter.addTags(tags);
  3. if (!options.disableNativeCrashReporting) RaygunNativeBridge.setTags(...)
     — before init the options global is undefined, so this member access
     throws a TypeError into the caller. -/
def addTag (tags : List String) (st : State) : OpResult :=
  let st2 := { st with currentTags := addTagList tags st.currentTags }
  let availW := crashReportingAvailable st2
  let repCalls := if availW.1 then 1 else 0
  match st2.options with
  | none =>
    { state := st2, warnings := availW.2, nativeCalls := 0, reporterCalls := repCalls, threw := true }
  | some opts =>
    if !opts.disableNativeCrashReporting then
      { state := st2, warnings := availW.2, nativeCalls := 1, reporterCalls := repCalls, threw := false }
    else
      { state := st2, warnings := availW.2, nativeCalls := 0, reporterCalls := repCalls, threw := false }

/-- The userObj computed by setUser in RaygunClient.ts:
Object.assign(\x7bfirstName: "", fullName: "", email: "", isAnonymous: true\x7d, src)
with src = \x7bidentifier: user, isAnonymous: true\x7d for a non-empty string,
\x7bidentifier: anonymous-getDeviceBasedId(), isAnonymous: true\x7d for an empty
string, the argument itself otherwise. Note the defaults differ from the
part_000 variant: isAnonymous defaults to true, and a NON-empty string also
carries isAnonymous true explicitly. -/
def setUserObj (devId : String) : UserArg → User
  | UserArg.ofString s =>
    if s ≠ "" then
      { identifier := some s, isAnonymous := true, firstName := "", fullName := "", email := "" }
    else
      { identifier := some ("anonymous-" ++ devId), isAnonymous := true,
        firstName := "", fullName := "", email := "" }
  | UserArg.undef =>
      { identifier := none, isAnonymous := true, firstName := "", fullName := "", email := "" }
  | UserArg.ofUser u =>
      { identifier := u.identifier
        isAnonymous := u.isAnonymous.getD true
        firstName := u.firstName.getD ""
        fullName := u.fullName.getD ""
        email := u.email.getD "" }

/-- Embedding of setUser from RaygunClient.ts. Source order: compute
userObj; currentUser = userObj (unguarded); delegate to the CrashReporter
and RealUserMonitor when available (warning otherwise, twice); then read
options.disableNativeCrashReporting — a TypeError before init. -/
def setUser (devId : String) (arg : UserArg) (st : State) : OpResult :=
  let st2 := { st with currentUser := setUserObj devId arg }
  let availCR := crashReportingAvailable st2
  let availRUM := realUserMonitoringAvailable st2
  let repCalls := (if availCR.1 then 1 else 0) + (if availRUM.1 then 1 else 0)
  match st2.options with
  | none =>
    { state := st2, warnings := availCR.2 + availRUM.2, nativeCalls := 0,
      reporterCalls := repCalls, threw := true }
  | some opts =>
    if !opts.disableNativeCrashReporting then
      { state := st2, warnings := availCR.2 + availRUM.2, nativeCalls := 1,
        reporterCalls := repCalls, threw := false }
    else
      { state := st2, warnings := availCR.2 + availRUM.2, nativeCalls := 0,
        reporterCalls := repCalls, threw := false }

/-- Embedding of recordBreadcrumb from RaygunClient.ts: guard first
(warn-and-return when unavailable), then delegate to the CrashReporter. -/
def recordBreadcrumb (message : String) (details : Option Raygun.BreadcrumbOption)
    (st : State) : OpResult :=
  let availW := crashReportingAvailable st
  if availW.1 then
    { state := st, warnings := availW.2, nativeCalls := 0, reporterCalls := 1, threw := false }
  else
    { state := st, warnings := availW.2, nativeCalls := 0, reporterCalls := 0, threw := false }

/-- Embedding of addCustomData from RaygunClient.ts: guard first, then
delegate to the CrashReporter. -/
def addCustomData (d : CustomData) (st : State) : OpResult :=
  let availW := crashReportingAvailable st
  if availW.1 then
    { state := st, warnings := availW.2, nativeCalls := 0, reporterCalls := 1, threw := false }
  else
    { state := st, warnings := availW.2, nativeCalls := 0, reporterCalls := 0, threw := false }

/-- Embedding of updateCustomData from RaygunClient.ts: guard first, then
delegate to the CrashReporter. -/
def updateCustomData (updater : CustomData → CustomData) (st : State) : OpResult :=
  let availW := crashReportingAvailable st
  if availW.1 then
    { state := st, warnings := availW.2, nativeCalls := 0, reporterCalls := 1, threw := false }
  else
    { state := st, warnings := availW.2, nativeCalls := 0, reporterCalls := 0, threw := false }

/-- Embedding of sendError from RaygunClient.ts: guard first
(warn-and-return when unavailable); afterwards delegate the custom data and
tags to addCustomData/addTag and hand the error to
crashReporter.processUnhandledError. An exception from the nested addTag
propagates (it cannot arise in a reachable post-init state, where options is
set). -/
def sendError (customData : Option CustomData) (tags : List String) (st : State) : OpResult :=
  let availW := crashReportingAvailable st
  if !availW.1 then
    { state := st, warnings := availW.2, nativeCalls := 0, reporterCalls := 0, threw := false }
  else
    let r1 :=
      match customData with
      | some d => addCustomData d st
      | none => { state := st, warnings := 0, nativeCalls := 0, reporterCalls := 0, threw := false }
    let r2 :=
      if tags ≠ [] then addTag tags r1.state
      else { state := r1.state, warnings := 0, nativeCalls := 0, reporterCalls := 0, threw := false }
    if r2.threw then
      { state := r2.state, warnings := availW.2 + r1.warnings + r2.warnings,
        nativeCalls := r1.nativeCalls + r2.nativeCalls,
        reporterCalls := r1.reporterCalls + r2.reporterCalls, threw := true }
    else
      { state := r2.state, warnings := availW.2 + r1.warnings + r2.warnings,
        nativeCalls := r1.nativeCalls + r2.nativeCalls,
        reporterCalls := r1.reporterCalls + r2.reporterCalls + 1, threw := false }

/-- Embedding of sendRUMTimingEvent from RaygunClient.ts: guard first, then
delegate to the RealUserMonitor. -/
def sendRUMTimingEvent (st : State) : OpResult :=
  let availW := realUserMonitoringAvailable st
  if availW.1 then
    { state := st, warnings := availW.2, nativeCalls := 0, reporterCalls := 1, threw := false }
  else
    { state := st, warnings := availW.2, nativeCalls := 0, reporterCalls := 0, threw := false }

end RaygunClient

namespace Raygun

theorem mem_setAdd {x t : String} {l : List String} :
    x ∈ setAdd l t ↔ x ∈ l ∨ x = t := by
  unfold setAdd
  by_cases h : t ∈ l
  · rw [if_pos h]
    exact ⟨Or.inl, fun hx => hx.elim id fun e => e ▸ h⟩
  · rw [if_neg h]
    simp [List.mem_append]

theorem addTagList_cons (t : String) (ts cur : List String) :
    addTagList (t :: ts) cur = addTagList ts (setAdd cur t) := rfl

theorem mem_addTagList {x : String} (ts cur : List String) :
    x ∈ addTagList ts cur ↔ x ∈ cur ∨ x ∈ ts := by
  induction ts generalizing cur with
  | nil => simp [addTagList]
  | cons t ts ih =>
    rw [addTagList_cons, ih, mem_setAdd]
    simp only [List.mem_cons]
    tauto

theorem toFinset_setAdd (l : List String) (t : String) :
    (setAdd l t).toFinset = insert t l.toFinset := by
  unfold setAdd
  by_cases h : t ∈ l
  · rw [if_pos h]
    exact (Finset.insert_eq_self.mpr (List.mem_toFinset.mpr h)).symm
  · rw [if_neg h]
    ext x
    simp [List.mem_toFinset, List.mem_append, or_comm]

theorem toFinset_addTagList (ts cur : List String) :
    (addTagList ts cur).toFinset = cur.toFinset ∪ ts.toFinset := by
  induction ts generalizing cur with
  | nil => simp [addTagList]
  | cons t ts ih =>
    rw [addTagList_cons, ih, toFinset_setAdd]
    ext x
    simp [List.mem_toFinset]

theorem addTagList_eq_of_mem (ts acc : List String) (h : ∀ t ∈ ts, t ∈ acc) :
    addTagList ts acc = acc := by
  induction ts with
  | nil => rfl
  | cons t ts ih =>
    have ht : t ∈ acc := h t (List.mem_cons_self t ts)
    rw [addTagList_cons, show setAdd acc t = acc from by simp [setAdd, ht]]
    exact ih fun x hx => h x (List.mem_cons_of_mem _ hx)

theorem addTagList_idem (ts cur : List String) :
    addTagList ts (addTagList ts cur) = addTagList ts cur :=
  addTagList_eq_of_mem ts _ fun t ht => (mem_addTagList ts cur).mpr (Or.inr ht)

theorem mem_fatalTagged {x : String} {s : Session} (b : Bool) (hx : x ∈ s.tags) :
    x ∈ (fatalTagged b s).tags := by
  unfold fatalTagged
  split
  · exact mem_setAdd.mpr (Or.inl hx)
  · exact hx

theorem processUnhandledError_fst (onB : Option FilterBehavior) (canNative : Bool)
    (err : Option ErrorObj) (isFatal : Bool) (frames : List StackFrame)
    (t : Nat) (env : EnvInfo) (pOS cv ov : String) (s : Session) :
    (processUnhandledError onB canNative err isFatal frames t env pOS cv ov s).1 =
      if shouldDropError err then s else fatalTagged isFatal s := by
  unfold processUnhandledError
  split <;> rfl

theorem processUnhandledError_snd (onB : Option FilterBehavior) (canNative : Bool)
    (err : Option ErrorObj) (isFatal : Bool) (frames : List StackFrame)
    (t : Nat) (env : EnvInfo) (pOS cv ov : String) (s : Session) :
    (processUnhandledError onB canNative err isFatal frames t env pOS cv ov s).2 =
      if shouldDropError err then Outcome.droppedMalformed
      else routeDelivery onB canNative (builtFor err frames isFatal s t env pOS cv ov) := by
  unfold processUnhandledError
  split <;> rfl

theorem mem_tags_applyOp {x : String} {s : Session} (op : SessionOp)
    (hop : isClear op = false) (hx : x ∈ s.tags) : x ∈ (applyOp s op).tags := by
  cases op with
  | opAddTag native tags =>
    exact (mem_addTagList tags s.tags).mpr (Or.inl hx)
  | opSetUser native genId arg =>
    show x ∈ (setUser native genId arg s).session.tags
    unfold setUser
    split <;> exact hx
  | opAddCustomData native d =>
    show x ∈ (addCustomData native d s).session.tags
    unfold addCustomData
    cases native <;> exact hx
  | opUpdateCustomData native updater => exact hx
  | opRecordBreadcrumb native message details now => exact hx
  | opProcessError onB canNative err isFatal frames t env pOS cv ov =>
    show x ∈ (processUnhandledError onB canNative err isFatal frames t env pOS cv ov s).1.tags
    rw [processUnhandledError_fst]
    split
    · exact hx
    · exact mem_fatalTagged isFatal hx
  | opClearSession => exact absurd hop (by simp [isClear])

theorem mem_tags_applyOps {x : String} (ops : List SessionOp) (s : Session)
    (hops : ∀ op ∈ ops, isClear op = false) (hx : x ∈ s.tags) :
    x ∈ (applyOps s ops).tags := by
  induction ops generalizing s with
  | nil => exact hx
  | cons op ops ih =>
    exact ih (applyOp s op)
      (fun op' h' => hops op' (List.mem_cons_of_mem _ h'))
      (mem_tags_applyOp op (hops op (List.mem_cons_self op ops)) hx)

/-- C9: for every finite sequence of addTag calls, the resulting session tag
set is the set union of the initial tag set and all tags ever passed — a
statement whose right-hand side does not depend on the call order and
collapses duplicates — and repeating an addTag call is idempotent. -/
theorem c9_addTag_set_union (native : NativeModule) (calls : List (List String)) (s : Session) :
    ((calls.foldl (fun acc ts => (addTag native ts acc).session) s).tags.toFinset
        = s.tags.toFinset ∪ calls.flatten.toFinset) ∧
    (∀ ts : List String,
      (addTag native ts (addTag native ts s).session).session = (addTag native ts s).session) := by
  constructor
  · induction calls generalizing s with
    | nil => simp
    | cons c cs ih =>
      rw [List.foldl_cons, ih]
      show (addTagList c s.tags).toFinset ∪ cs.flatten.toFinset = _
      rw [toFinset_addTagList]
      ext x
      simp [List.mem_toFinset]
  · intro ts
    show ({ { s with tags := addTagList ts s.tags } with
              tags := addTagList ts (addTagList ts s.tags) } : Session) = _
    rw [addTagList_idem]
    rfl

/-- C10: processing a fatal occurrence adds the tag "Fatal" to the live
session; it survives every further pipeline event other than clearSession,
so the Tags of every payload built later (also for non-fatal occurrences)
contain it, while the fresh session installed by clearSession does not. -/
theorem c10_fatal_tag_persists (onB : Option FilterBehavior) (canNative : Bool)
    (e : Option ErrorObj) (frames : List StackFrame) (t : Nat) (env : EnvInfo)
    (pOS cv ov : String) (s s1 : Session)
    (hwf : shouldDropError e = false)
    (hs1 : s1 = (processUnhandledError onB canNative e true frames t env pOS cv ov s).1)
    (ops : List SessionOp) (hops : ∀ op ∈ ops, isClear op = false)
    (e2 : Option ErrorObj) (frames2 : List StackFrame) (isFatal2 : Bool)
    (t2 : Nat) (env2 : EnvInfo) (pOS2 cv2 ov2 : String) :
    "Fatal" ∈ s1.tags ∧
    "Fatal" ∈ (applyOps s1 ops).tags ∧
    "Fatal" ∈ (builtFor e2 frames2 isFatal2 (applyOps s1 ops) t2 env2 pOS2 cv2 ov2).Details.Tags ∧
    "Fatal" ∉ clearSession.tags := by
  have h1 : "Fatal" ∈ s1.tags := by
    rw [hs1, processUnhandledError_fst, if_neg (by simp [hwf])]
    show "Fatal" ∈ (fatalTagged true s).tags
    unfold fatalTagged
    rw [if_pos rfl]
    exact mem_setAdd.mpr (Or.inr rfl)
  have h2 : "Fatal" ∈ (applyOps s1 ops).tags := mem_tags_applyOps ops s1 hops h1
  refine ⟨h1, h2, ?_, by decide⟩
  show "Fatal" ∈ (fatalTagged isFatal2 (applyOps s1 ops)).tags
  exact mem_fatalTagged isFatal2 h2

/-- Witness for c10_fatal_tag_persists at a concrete fatal occurrence
followed by an addTag and a non-fatal occurrence. -/
theorem c10_fatal_tag_persists_witness :
    shouldDropError (some errBoom) = false ∧
    (processUnhandledError none false (some errBoom) true [] 0 envNone "ios" "4.0.0" ""
        getCleanSession).1 =
      (processUnhandledError none false (some errBoom) true [] 0 envNone "ios" "4.0.0" ""
        getCleanSession).1 ∧
    (∀ op ∈ [SessionOp.opAddTag NativeModule.inactive ["ui"]], isClear op = false) ∧
    ("Fatal" ∈ (processUnhandledError none false (some errBoom) true [] 0 envNone "ios" "4.0.0" ""
        getCleanSession).1.tags ∧
     "Fatal" ∈ (applyOps (processUnhandledError none false (some errBoom) true [] 0 envNone "ios"
        "4.0.0" "" getCleanSession).1 [SessionOp.opAddTag NativeModule.inactive ["ui"]]).tags ∧
     "Fatal" ∈ (builtFor (some errBoom) [] false
        (applyOps (processUnhandledError none false (some errBoom) true [] 0 envNone "ios"
          "4.0.0" "" getCleanSession).1 [SessionOp.opAddTag NativeModule.inactive ["ui"]]) 0
        envNone "ios" "4.0.0" "").Details.Tags ∧
     "Fatal" ∉ clearSession.tags) :=
  ⟨by decide, rfl, by decide,
   c10_fatal_tag_persists none false (some errBoom) [] 0 envNone "ios" "4.0.0" ""
     getCleanSession _ (by decide) rfl
     [SessionOp.opAddTag NativeModule.inactive ["ui"]] (by decide)
     (some errBoom) [] false 0 envNone "ios" "4.0.0" ""⟩

theorem buildsPayload_routeDelivery (onB : Option FilterBehavior) (canNative : Bool)
    (p : CrashReportPayload) : buildsPayload (routeDelivery onB canNative p) = true := by
  cases onB with
  | none =>
    show buildsPayload
      (if canNative = true then Outcome.sentNative p else Outcome.sentDirect p) = true
    split <;> rfl
  | some f =>
    show buildsPayload
      (if (!f.decision p) = true then Outcome.skippedByFilter p
       else if canNative = true then Outcome.sentNative (applyFilterWrites p f.writes)
       else Outcome.sentDirect (applyFilterWrites p f.writes)) = true
    split
    · rfl
    · split <;> rfl

theorem shouldDropError_iff (err : Option ErrorObj) :
    shouldDropError err = true ↔
      err = none ∨ ∃ e, err = some e ∧ (e.stack = none ∨ e.stack = some "") := by
  cases err with
  | none => simp [shouldDropError]
  | some e =>
    cases h : e.stack with
    | none => simp [shouldDropError, jsFalsyStr, h]
    | some v => simp [shouldDropError, jsFalsyStr, h]

/-- C1 (evaluation at the failing input): in production the pipeline
rewrites the device file path to the virtual source-map location but leaves
the "(address at ...)" debug suffix on the method name, because
  cleanedStackFrames.stack || [].filter(filterOutReactFrames).map(noAddressAt)
applies the filter and the suffix-stripper to the empty array literal, never
to the frames; the (unreached) noAddressAt helper itself would have yielded
methodName "foo", and the (unreached) noise filter would have kept this
frame and dropped framework-internal ones such as MessageQueue.js. -/
theorem c1_prod_keeps_address_suffix :
    prodStack [rawDeviceFrame] =
      [{ file := "file://reactnative.local/main.jsbundle",
         methodName := "foo(address at 12:3)", lineNumber := 5, column := 3 }] ∧
    noAddressAt rawDeviceFrame =
      { file := "/data/app/MyApp.app/main.jsbundle", methodName := "foo",
        lineNumber := 5, column := 3 } ∧
    prodStack [{ file := "/js/MessageQueue.js", methodName := "guard",
                 lineNumber := 1, column := 1 }] =
      [{ file := "/js/MessageQueue.js", methodName := "guard",
         lineNumber := 1, column := 1 }] ∧
    filterOutReactFrames { file := "/js/MessageQueue.js", methodName := "guard",
                           lineNumber := 1, column := 1 } = false := by
  refine ⟨by decide, by decide, by decide, by decide⟩

/-- C2 counterexample: a session mutation performed after payload
construction has begun IS observable in the in-flight payload — an addTag
that lands between the start of generatePayload and the resolution of its
awaited environment lookup shows up in the payload Tags, unlike in the
undisturbed build. -/
theorem c2_mutation_during_build_observable :
    "late" ∈ (generatePayloadFrom (some errBoom) [] getCleanSession
        (addTag NativeModule.inactive ["late"] getCleanSession).session 0 envNone
        "android" "4.0.0" "1.0").Details.Tags ∧
    "late" ∉ (generatePayloadFrom (some errBoom) [] getCleanSession getCleanSession 0 envNone
        "android" "4.0.0" "1.0").Details.Tags := by
  refine ⟨by decide, by decide⟩

/-- C2 amended: generatePayload is handed the live session, not a deep
copy. The payload it returns is a fresh structure, so mutations after
construction completes are never observable, and the user and custom-data
fields are fixed by the session as the build began (wholesale replacements
during the build are invisible); but the tag set and breadcrumb trail are
read only after the awaited environment lookup, so in-place mutations
(addTag, recordBreadcrumb) interleaved with the build are observable. -/
theorem c2_payload_field_snapshots (err : Option ErrorObj) (frames : List StackFrame)
    (sAtCall sAtResume : Session) (t : Nat) (env : EnvInfo) (pOS cv ov : String) :
    (generatePayloadFrom err frames sAtCall sAtResume t env pOS cv ov).Details.User
        = upperFirstUser sAtCall.user ∧
    (generatePayloadFrom err frames sAtCall sAtResume t env pOS cv ov).Details.UserCustomData
        = sAtCall.customData ∧
    (generatePayloadFrom err frames sAtCall sAtResume t env pOS cv ov).Details.Tags
        = sAtResume.tags ∧
    (generatePayloadFrom err frames sAtCall sAtResume t env pOS cv ov).Details.Breadcrumbs
        = sAtResume.breadcrumbs.map upperFirstBreadcrumb :=
  ⟨rfl, rfl, rfl, rfl⟩

/-- C3 counterexample: Object.freeze on the payload is shallow, so a filter
that writes the nested field Details.Error.Message changes the very object
that is then serialized and transmitted: the transmitted payload differs
from the payload as built. -/
theorem c3_nested_mutation_observable :
    transmittedOf (processUnhandledError
        (some { decision := fun _ => true, writes := [FilterWrite.setErrorMessage "hacked"] })
        false (some errBoom) false [] 0 envNone "ios" "4.0.0" "" getCleanSession).2
      = some (applyFilterWrites builtBoom [FilterWrite.setErrorMessage "hacked"]) ∧
    (applyFilterWrites builtBoom [FilterWrite.setErrorMessage "hacked"]).Details.Error.Message
      = "hacked" ∧
    builtBoom.Details.Error.Message = "boom" ∧
    applyFilterWrites builtBoom [FilterWrite.setErrorMessage "hacked"] ≠ builtBoom := by
  refine ⟨by decide, by decide, by decide, by decide⟩

/-- C3 amended: the freeze protects exactly the top level — filter writes
to the payload object itself (OccurredOn, Details) are silently ignored and
unobservable, while writes through the unfrozen nested objects (such as
Details.Error.Message or Details.Tags) take effect on what is
transmitted. -/
theorem c3_shallow_freeze_boundary (p : CrashReportPayload) (t : Nat)
    (d : PayloadDetails) (m : String) (tags : List String) :
    applyFilterWrite p (FilterWrite.setOccurredOn t) = p ∧
    applyFilterWrite p (FilterWrite.setDetails d) = p ∧
    (applyFilterWrite p (FilterWrite.setErrorMessage m)).Details.Error.Message = m ∧
    (applyFilterWrite p (FilterWrite.setTags tags)).Details.Tags = tags :=
  ⟨rfl, rfl, rfl, rfl⟩

/-- C4: for every processed occurrence, a configured filter returning false
yields zero transport calls; a configured filter returning true, or no
configured filter, yields exactly one transport call — to the native
reporter exactly when it is active, otherwise to the direct transport. -/
theorem c4_filter_gates_transmission (f : FilterBehavior) (canNative : Bool)
    (e : ErrorObj) (isFatal : Bool) (frames : List StackFrame) (t : Nat)
    (env : EnvInfo) (pOS cv ov : String) (s : Session)
    (hwf : shouldDropError (some e) = false) :
    (f.decision (builtFor (some e) frames isFatal s t env pOS cv ov) = false →
      transmissions
        (processUnhandledError (some f) canNative (some e) isFatal frames t env pOS cv ov s).2
        = 0) ∧
    (f.decision (builtFor (some e) frames isFatal s t env pOS cv ov) = true →
      transmissions
        (processUnhandledError (some f) canNative (some e) isFatal frames t env pOS cv ov s).2
        = 1 ∧
      ((processUnhandledError (some f) canNative (some e) isFatal frames t env pOS cv ov s).2 =
          Outcome.sentNative
            (applyFilterWrites (builtFor (some e) frames isFatal s t env pOS cv ov) f.writes)
        ↔ canNative = true)) ∧
    (transmissions
        (processUnhandledError none canNative (some e) isFatal frames t env pOS cv ov s).2
        = 1 ∧
      ((processUnhandledError none canNative (some e) isFatal frames t env pOS cv ov s).2 =
          Outcome.sentNative (builtFor (some e) frames isFatal s t env pOS cv ov)
        ↔ canNative = true)) := by
  have hsnd1 := processUnhandledError_snd (some f) canNative (some e) isFatal frames t env pOS cv ov s
  have hsnd2 := processUnhandledError_snd none canNative (some e) isFatal frames t env pOS cv ov s
  rw [if_neg (by simp [hwf])] at hsnd1 hsnd2
  refine ⟨?_, ?_, ?_⟩
  · intro hdec
    rw [hsnd1]
    unfold routeDelivery
    simp [hdec, transmissions]
  · intro hdec
    rw [hsnd1]
    unfold routeDelivery
    cases canNative <;> simp [hdec, transmissions]
  · rw [hsnd2]
    unfold routeDelivery
    cases canNative <;> simp [transmissions]

/-- Witness for c4_filter_gates_transmission at a concrete occurrence, with
an always-true non-mutating filter. -/
theorem c4_filter_gates_transmission_witness :
    shouldDropError (some errBoom) = false ∧
    (((FilterBehavior.mk (fun _ => true) []).decision
        (builtFor (some errBoom) [] false getCleanSession 0 envNone "ios" "4.0.0" "") = false →
      transmissions
        (processUnhandledError (some (FilterBehavior.mk (fun _ => true) [])) false (some errBoom)
          false [] 0 envNone "ios" "4.0.0" "" getCleanSession).2 = 0) ∧
    ((FilterBehavior.mk (fun _ => true) []).decision
        (builtFor (some errBoom) [] false getCleanSession 0 envNone "ios" "4.0.0" "") = true →
      transmissions
        (processUnhandledError (some (FilterBehavior.mk (fun _ => true) [])) false (some errBoom)
          false [] 0 envNone "ios" "4.0.0" "" getCleanSession).2 = 1 ∧
      ((processUnhandledError (some (FilterBehavior.mk (fun _ => true) [])) false (some errBoom)
          false [] 0 envNone "ios" "4.0.0" "" getCleanSession).2 =
          Outcome.sentNative
            (applyFilterWrites (builtFor (some errBoom) [] false getCleanSession 0 envNone
              "ios" "4.0.0" "") (FilterBehavior.mk (fun _ => true) []).writes)
        ↔ false = true)) ∧
    (transmissions
        (processUnhandledError none false (some errBoom) false [] 0 envNone "ios" "4.0.0" ""
          getCleanSession).2 = 1 ∧
      ((processUnhandledError none false (some errBoom) false [] 0 envNone "ios" "4.0.0" ""
          getCleanSession).2 =
          Outcome.sentNative (builtFor (some errBoom) [] false getCleanSession 0 envNone
            "ios" "4.0.0" "")
        ↔ false = true))) :=
  ⟨by decide,
   c4_filter_gates_transmission (FilterBehavior.mk (fun _ => true) []) false errBoom false [] 0
     envNone "ios" "4.0.0" "" getCleanSession (by decide)⟩

/-- C5 counterexample: setUser(undefined) takes the non-string branch of
part_000, so Object.assign copies nothing over the defaults: the stored user
has NO identifier (nothing is synthesized) and isAnonymous false — not a
synthesized anonymous identifier with isAnonymous true; in the
RaygunClient.ts variant the isAnonymous default is true but an identifier is
still not synthesized. -/
theorem c5_setUser_undefined_not_anonymous :
    (setUserObj "uuid-1" UserArg.undef).isAnonymous = false ∧
    (setUserObj "uuid-1" UserArg.undef).identifier = none ∧
    (RaygunClient.setUserObj "device-1" UserArg.undef).identifier = none := by
  refine ⟨rfl, rfl, rfl⟩

/-- C5 amended, per variant: setUser("") synthesizes an anonymous
identifier with isAnonymous true in both variants (uuidv4 in part_000,
anonymous-deviceId in RaygunClient.ts); setUser("bob") uses "bob" without
invoking synthesis, with isAnonymous false in part_000 but true in
RaygunClient.ts; setUser(undefined) synthesizes nothing and leaves the field
defaults (isAnonymous false in part_000, true in RaygunClient.ts, no
identifier in either); and in part_000 the computed user is only stored
into the session when the native reporter is active. -/
theorem c5_setUser_variants (genId devId : String) :
    setUserObj genId (UserArg.ofString "") =
      { identifier := some genId, isAnonymous := true,
        firstName := "", fullName := "", email := "" } ∧
    setUserObj genId (UserArg.ofString "bob") =
      { identifier := some "bob", isAnonymous := false,
        firstName := "", fullName := "", email := "" } ∧
    setUserObj genId UserArg.undef =
      { identifier := none, isAnonymous := false,
        firstName := "", fullName := "", email := "" } ∧
    RaygunClient.setUserObj devId (UserArg.ofString "") =
      { identifier := some ("anonymous-" ++ devId), isAnonymous := true,
        firstName := "", fullName := "", email := "" } ∧
    RaygunClient.setUserObj devId (UserArg.ofString "bob") =
      { identifier := some "bob", isAnonymous := true,
        firstName := "", fullName := "", email := "" } ∧
    RaygunClient.setUserObj devId UserArg.undef =
      { identifier := none, isAnonymous := true,
        firstName := "", fullName := "", email := "" } ∧
    (∀ native : NativeModule, native ≠ NativeModule.active →
      ∀ s : Session, (setUser native genId (UserArg.ofString "bob") s).session = s) := by
  refine ⟨rfl, rfl, rfl, rfl, rfl, rfl, ?_⟩
  intro native h s
  unfold setUser
  rw [if_neg h]

/-- C7 counterexample: an error with a usable stack but no message is NOT
dropped — the guard tests only !error and !error.stack — so a payload is
built (with empty Message) and transmitted, contrary to the claim that a
missing message alone is logged and dropped. -/
theorem c7_missing_message_not_dropped :
    errNoMessage.message = none ∧
    shouldDropError (some errNoMessage) = false ∧
    buildsPayload (processUnhandledError none false (some errNoMessage) false [] 0 envNone
        "ios" "4.0.0" "" getCleanSession).2 = true ∧
    (processUnhandledError none false (some errNoMessage) false [] 0 envNone
        "ios" "4.0.0" "" getCleanSession).2 =
      Outcome.sentDirect
        (builtFor (some errNoMessage) [] false getCleanSession 0 envNone "ios" "4.0.0" "") ∧
    (builtFor (some errNoMessage) [] false getCleanSession 0 envNone
        "ios" "4.0.0" "").Details.Error.Message = "" := by
  refine ⟨by decide, by decide, by decide, by decide, by decide⟩

/-- C7 amended: an occurrence is dropped without payload construction
exactly when the error itself is falsy or its stack is missing or empty;
every other occurrence — including one with no message — gets a payload. -/
theorem c7_drop_iff_stack_missing (onB : Option FilterBehavior) (canNative : Bool)
    (err : Option ErrorObj) (isFatal : Bool) (frames : List StackFrame) (t : Nat)
    (env : EnvInfo) (pOS cv ov : String) (s : Session) :
    buildsPayload (processUnhandledError onB canNative err isFatal frames t env pOS cv ov s).2
        = false ↔
      err = none ∨ ∃ e, err = some e ∧ (e.stack = none ∨ e.stack = some "") := by
  rw [processUnhandledError_snd]
  by_cases hd : shouldDropError err = true
  · rw [if_pos hd]
    simpa [buildsPayload] using (shouldDropError_iff err).mp hd
  · rw [if_neg hd]
    rw [buildsPayload_routeDelivery]
    simp only [Bool.true_eq_false, false_iff]
    exact fun hR => hd ((shouldDropError_iff err).mpr hR)

/-- C8 (evaluation at the failing configuration): addCustomData calls
Rg4rn.setCustomData without the canEnableNative guard every sibling
operation has — it propagates even when the native reporter is present but
not active, and when the native module is absent the member access throws a
TypeError into the caller (after the local merge took effect); the guarded
sibling updateCustomData shows the behavior the claim describes. -/
theorem c8_addCustomData_unguarded :
    (addCustomData NativeModule.inactive [("a", "1")] getCleanSession).nativeCalls = 1 ∧
    (addCustomData NativeModule.absent [("a", "1")] getCleanSession).threw = true ∧
    (addCustomData NativeModule.absent [("a", "1")] getCleanSession).session.customData
      = [("a", "1")] ∧
    (updateCustomData NativeModule.inactive (fun d => d) getCleanSession).nativeCalls = 0 ∧
    (updateCustomData NativeModule.inactive (fun d => d) getCleanSession).threw = false ∧
    (updateCustomData NativeModule.absent (fun d => d) getCleanSession).threw = false := by
  refine ⟨rfl, rfl, rfl, rfl, rfl, rfl⟩

/-- C6 counterexample: addTag called before init does NOT no-op — it adds
the tags to the module tag set before any guard and then throws a TypeError
from reading disableNativeCrashReporting off the still-undefined options
global. -/
theorem c6_addTag_preinit_mutates_and_throws :
    (RaygunClient.addTag ["t"] (RaygunClient.preInit "dev")).threw = true ∧
    (RaygunClient.addTag ["t"] (RaygunClient.preInit "dev")).state.currentTags = ["t"] ∧
    (RaygunClient.preInit "dev").currentTags = [] := by
  refine ⟨rfl, by decide, rfl⟩

/-- C6 amended: before initialization, recordBreadcrumb, addCustomData,
updateCustomData, sendError and sendRUMTimingEvent log one warning and
no-op (state unchanged, no collaborator or native call, no throw); addTag
and setUser however first mutate the module tag set / current user and then
throw a TypeError from reading the undefined options global (setUser having
warned twice, once per unavailable subsystem). -/
theorem c6_preinit_guard_behavior (st : RaygunClient.State)
    (h1 : st.inited = false) (h2 : st.options = none)
    (d : CustomData) (updater : CustomData → CustomData) (msg : String)
    (details : Option BreadcrumbOption) (cd : Option CustomData)
    (tags : List String) (devId : String) (arg : UserArg) :
    RaygunClient.recordBreadcrumb msg details st =
      { state := st, warnings := 1, nativeCalls := 0, reporterCalls := 0, threw := false } ∧
    RaygunClient.addCustomData d st =
      { state := st, warnings := 1, nativeCalls := 0, reporterCalls := 0, threw := false } ∧
    RaygunClient.updateCustomData updater st =
      { state := st, warnings := 1, nativeCalls := 0, reporterCalls := 0, threw := false } ∧
    RaygunClient.sendError cd tags st =
      { state := st, warnings := 1, nativeCalls := 0, reporterCalls := 0, threw := false } ∧
    RaygunClient.sendRUMTimingEvent st =
      { state := st, warnings := 1, nativeCalls := 0, reporterCalls := 0, threw := false } ∧
    RaygunClient.addTag tags st =
      { state := { st with currentTags := addTagList tags st.currentTags },
        warnings := 1, nativeCalls := 0, reporterCalls := 0, threw := true } ∧
    RaygunClient.setUser devId arg st =
      { state := { st with currentUser := RaygunClient.setUserObj devId arg },
        warnings := 2, nativeCalls := 0, reporterCalls := 0, threw := true } := by
  cases st with
  | mk i o hcr hrum ct cu =>
    replace h1 : i = false := h1
    replace h2 : o = none := h2
    subst h1
    subst h2
    exact ⟨rfl, rfl, rfl, rfl, rfl, rfl, rfl⟩

/-- Witness for c6_preinit_guard_behavior at the concrete pre-init state. -/
theorem c6_preinit_guard_behavior_witness :
    (RaygunClient.preInit "dev").inited = false ∧
    (RaygunClient.preInit "dev").options = none ∧
    (RaygunClient.recordBreadcrumb "m" none (RaygunClient.preInit "dev") =
      { state := RaygunClient.preInit "dev", warnings := 1, nativeCalls := 0,
        reporterCalls := 0, threw := false } ∧
    RaygunClient.addCustomData [("a", "1")] (RaygunClient.preInit "dev") =
      { state := RaygunClient.preInit "dev", warnings := 1, nativeCalls := 0,
        reporterCalls := 0, threw := false } ∧
    RaygunClient.updateCustomData id (RaygunClient.preInit "dev") =
      { state := RaygunClient.preInit "dev", warnings := 1, nativeCalls := 0,
        reporterCalls := 0, threw := false } ∧
    RaygunClient.sendError (some [("a", "1")]) ["t"] (RaygunClient.preInit "dev") =
      { state := RaygunClient.preInit "dev", warnings := 1, nativeCalls := 0,
        reporterCalls := 0, threw := false } ∧
    RaygunClient.sendRUMTimingEvent (RaygunClient.preInit "dev") =
      { state := RaygunClient.preInit "dev", warnings := 1, nativeCalls := 0,
        reporterCalls := 0, threw := false } ∧
    RaygunClient.addTag ["t"] (RaygunClient.preInit "dev") =
      { state := { RaygunClient.preInit "dev" with
                     currentTags := addTagList ["t"] (RaygunClient.preInit "dev").currentTags },
        warnings := 1, nativeCalls := 0, reporterCalls := 0, threw := true } ∧
    RaygunClient.setUser "dev" UserArg.undef (RaygunClient.preInit "dev") =
      { state := { RaygunClient.preInit "dev" with
                     currentUser := RaygunClient.setUserObj "dev" UserArg.undef },
        warnings := 2, nativeCalls := 0, reporterCalls := 0, threw := true }) :=
  ⟨rfl, rfl,
   c6_preinit_guard_behavior (RaygunClient.preInit "dev") rfl rfl [("a", "1")] id "m" none
     (some [("a", "1")]) ["t"] "dev" UserArg.undef⟩

end Raygun
